import Mathlib

/-!
Verification of the Spreadsheet-to-Notion synchronization core.

This file shallowly embeds the TypeScript sources
(`src/core/Validator.ts`, `src/core/DataMapper.ts`,
`src/core/NotionApiClient.ts`, `src/core/TriggerManager.ts`,
`src/utils/Constants.ts`) into Lean and proves properties of the
embedding.

Modelling conventions:
* Spreadsheet cell values (`any` in TS) are the inductive `CellValue`:
  a string, a number, a boolean, a Date (by its millisecond timestamp),
  or null/undefined (`CellValue.empty`).
* JS numbers are modelled as `Int`: the claims under study only exercise
  integral values; fractional, `NaN` and `Infinity` cell contents are not
  modelled (`Number.isNaN` on an `Int` model is always false).
* JS string-to-number coercion (`Number(s)`, `parseInt(s, 10)`) is
  modelled for optionally signed decimal integer literals; hexadecimal,
  fractional and exponent literals are outside the model.
* `Date` string parsing models the ISO `YYYY-MM-DD` form; regional
  formats accepted by some JS engines are outside the model.
* `String(aDate)` and `String(null)` renderings are fixed strings; the
  properties proved never depend on their exact text.
* JS string `.length` counts UTF-16 units, Lean counts code points; all
  strings manipulated here are ASCII so the two agree.
-/

/-- JS whitespace class `\s` (space, tab, line and paragraph separators,
form/vertical feed, NBSP, BOM). -/
def isJsSpace (c : Char) : Bool :=
  c = ' ' || c = '\t' || c = '\n' || c = '\r' ||
  c.val = 11 || c.val = 12 || c.val = 0xA0 ||
  c.val = 0x2028 || c.val = 0x2029 || c.val = 0xFEFF

/-- `String.prototype.trim()`: strip leading and trailing `\s` characters. -/
def jsTrim (s : String) : String :=
  String.mk (((s.data.dropWhile isJsSpace).reverse.dropWhile isJsSpace).reverse)

/-- `String.prototype.toLowerCase()` (ASCII range; all inputs compared
against lowercase literals in this code base are ASCII). -/
def jsToLower (s : String) : String :=
  String.mk (s.data.map Char.toLower)

/-- `s.substring(0, n)` of JS: the first `n` characters (code units; the
strings handled here are ASCII).  List-based so that concrete instances
reduce. -/
def strTake (s : String) (n : Nat) : String :=
  String.mk (s.data.take n)

/-- A spreadsheet cell value (`any` in the TS sources). -/
inductive CellValue where
  | str (s : String)
  | num (n : Int)
  | boolean (b : Bool)
  | date (ms : Int)
  | empty
deriving DecidableEq, Repr

/-- `String(value)` for the cell values of the model. `String(null)` is
rendered "null"; the Date rendering is abstracted (only its length, far
under every limit checked, could matter and never does in the claims). -/
def jsToString : CellValue → String
  | .str s => s
  | .num n => n.repr
  | .boolean b => cond b "true" "false"
  | .date ms => "Date " ++ ms.repr
  | .empty => "null"

/-- Digits of a decimal literal to a natural number. -/
def digitsToNat (l : List Char) : Nat :=
  l.foldl (fun acc c => acc * 10 + (c.toNat - '0'.toNat)) 0

/-- `Number(s)` on a string, `none` for NaN.  Optionally signed decimal
integer literals only (see the file comment). -/
def jsStringToNumber (s : String) : Option Int :=
  let t := (jsTrim s).data
  if t.isEmpty then some 0
  else
    let (sign, body) : Int × List Char :=
      match t with
      | '+' :: r => (1, r)
      | '-' :: r => (-1, r)
      | r => (1, r)
    if body.isEmpty then none
    else if body.all Char.isDigit then some (sign * (digitsToNat body : Int))
    else none

/-- `Number(value)`, `none` for NaN.  `Number(null)` is 0; a Date coerces
to its millisecond timestamp. -/
def jsToNumber : CellValue → Option Int
  | .str s => jsStringToNumber s
  | .num n => some n
  | .boolean b => some (cond b 1 0)
  | .date ms => some ms
  | .empty => some 0

/-- `parseInt(s, 10)`, `none` for NaN: skip leading whitespace, optional
sign, then the longest leading run of decimal digits. -/
def jsParseInt (s : String) : Option Int :=
  let t := s.data.dropWhile isJsSpace
  let (sign, body) : Int × List Char :=
    match t with
    | '+' :: r => (1, r)
    | '-' :: r => (-1, r)
    | r => (1, r)
  let ds := body.takeWhile Char.isDigit
  if ds.isEmpty then none else some (sign * (digitsToNat ds : Int))

/-- `CONSTANTS.PATTERNS.PHONE = /^[+]?[\d\s\-()]+$/`: body characters. -/
def isPhoneBodyChar (c : Char) : Bool :=
  c.isDigit || isJsSpace c || c = '-' || c = '(' || c = ')'

/-- `CONSTANTS.PATTERNS.PHONE.test s`. -/
def phonePattern (s : String) : Bool :=
  match s.data with
  | [] => false
  | '+' :: rest => !rest.isEmpty && rest.all isPhoneBodyChar
  | l => l.all isPhoneBodyChar

/-- `CONSTANTS.PATTERNS.URL = /^https?:\/\/.+/`: the string starts with
http:// or https:// and at least one non-line-terminator character
follows (the pattern is unanchored at the right). -/
def urlPattern (s : String) : Bool :=
  let after (p : String) : Bool :=
    (s.startsWith p) &&
      (match (s.data.drop p.length).head? with
       | some c => !(c = '\n' || c = '\r' || c.val = 0x2028 || c.val = 0x2029)
       | none => false)
  after "http://" || after "https://"

/-- `[^\s@]` of the email pattern. -/
def isEmailAtomChar (c : Char) : Bool :=
  !isJsSpace c && c ≠ '@'

/-- `CONSTANTS.PATTERNS.EMAIL = /^[^\s@]+@[^\s@]+\.[^\s@]+$/`. -/
def emailPattern (s : String) : Bool :=
  match s.splitOn "@" with
  | [l, r] =>
    !l.isEmpty && l.data.all isEmailAtomChar &&
    r.data.all isEmailAtomChar &&
    ((r.data.drop 1).dropLast.contains '.')
  | _ => false

/-- The checkbox literals both the validator and the converter accept. -/
def checkboxTokens : List String :=
  ["true", "false", "yes", "no", "1", "0", "on", "off"]

/-- `CONSTANTS.DATA_TYPES` values. -/
def dataTypeValues : List String :=
  ["title", "rich_text", "number", "select", "multi_select", "date",
   "checkbox", "url", "email", "phone_number"]

/-- `ValidationResult` of `src/types`. -/
structure ValidationResult where
  valid : Bool
  errors : List String
deriving DecidableEq, Repr

/-- `ColumnMapping` of `src/types`. -/
structure ColumnMapping where
  spreadsheetColumn : String
  notionPropertyName : String
  dataType : String
  isTarget : Bool
  isRequired : Bool
deriving DecidableEq, Repr

/-! ## Calendar arithmetic for `Date.prototype.toISOString` -/

/-- Civil date (year, month, day) from days since 1970-01-01 (UTC), the
standard days-from-civil inverse used by every proleptic-Gregorian
implementation, hence by `toISOString`. -/
def civilFromDays (z0 : Int) : Int × Nat × Nat :=
  let z := z0 + 719468
  let era := z.fdiv 146097
  let doe := (z - era * 146097).toNat
  let yoe := (doe - doe / 1460 + doe / 36524 - doe / 146096) / 365
  let y := (yoe : Int) + era * 400
  let doy := doe - (365 * yoe + yoe / 4 - yoe / 100)
  let mp := (5 * doy + 2) / 153
  let d := doy - (153 * mp + 2) / 5 + 1
  let m := if mp < 10 then mp + 3 else mp - 9
  ((if m ≤ 2 then y + 1 else y), m, d)

/-- Zero-pad a natural to two digits. -/
def pad2 (n : Nat) : String :=
  if n < 10 then "0" ++ n.repr else n.repr

/-- Zero-pad a natural to four digits (years 1000–9999 need no padding;
`toISOString` years outside 0–9999 are not modelled). -/
def pad4 (n : Nat) : String :=
  if n < 10 then "000" ++ n.repr
  else if n < 100 then "00" ++ n.repr
  else if n < 1000 then "0" ++ n.repr
  else n.repr

/-- The `YYYY-MM-DD` part of `toISOString` from a civil date. -/
def formatYMD : Int × Nat × Nat → String
  | (y, m, d) => pad4 y.toNat ++ "-" ++ pad2 m ++ "-" ++ pad2 d

/-- `dateValue.toISOString().split('T')[0]` from a millisecond timestamp:
the civil date of the containing UTC day. -/
def isoDateOfMs (ms : Int) : String :=
  formatYMD (civilFromDays (ms.fdiv 86400000))

/-- `new Date(ms)` is an Invalid Date (`getTime()` is NaN) outside
±8,640,000,000,000,000 ms. -/
def msInDateRange (ms : Int) : Bool :=
  ms.natAbs ≤ 8640000000000000

/-- Days since 1970-01-01 of a civil date (the inverse of
`civilFromDays`). -/
def daysFromCivil (y0 : Int) (m d : Nat) : Int :=
  let y := if m ≤ 2 then y0 - 1 else y0
  let era := y.fdiv 400
  let yoe := (y - era * 400).toNat
  let mp := if 2 < m then m - 3 else m + 9
  let doy := (153 * mp + 2) / 5 + d - 1
  let doe := yoe * 365 + yoe / 4 - yoe / 100 + doy
  era * 146097 + (doe : Int) - 719468

/-- Model of `new Date(string)` parsing: ISO `YYYY-MM-DD` (parsed as UTC
midnight) only, `none` for an Invalid Date (see the file comment). -/
def jsParseDate (s : String) : Option Int :=
  match s.splitOn "-" with
  | [y, m, d] =>
    if y.data.length = 4 && y.data.all Char.isDigit &&
       m.data.length = 2 && m.data.all Char.isDigit &&
       d.data.length = 2 && d.data.all Char.isDigit then
      let mn := digitsToNat m.data
      let dn := digitsToNat d.data
      if 1 ≤ mn && mn ≤ 12 && 1 ≤ dn && dn ≤ 31 then
        some (daysFromCivil (digitsToNat y.data) mn dn * 86400000)
      else none
    else none
  | _ => none

/-! ## `src/core/Validator.ts` -/

namespace Validator

/-- `Validator.isEmpty`: null/undefined, a blank string, or a NaN number
(never NaN in the `Int` model). -/
def isEmpty : CellValue → Bool
  | .empty => true
  | .str s => jsTrim s = ""
  | _ => false

/-- `Validator.getColumnIndex`: a numeric string in range is used
directly; otherwise a letter code A, B, …, Z, AA, … converts via base 26;
-1 when neither resolves to an index inside the row. -/
def getColumnIndex (columnName : String) (rowData : List CellValue) : Int :=
  let numeric : Option Int :=
    match jsParseInt columnName with
    | some i => if 0 ≤ i ∧ i < (rowData.length : Int) then some i else none
    | none => none
  match numeric with
  | some i => i
  | none =>
    if !columnName.isEmpty ∧ columnName.data.all (fun c => c.isAlpha) then
      let upper := columnName.data.map Char.toUpper
      let result := upper.foldl (fun acc c => acc * 26 + (c.toNat - 'A'.toNat + 1)) 0
      let zeroBasedIndex : Int := (result : Int) - 1
      if 0 ≤ zeroBasedIndex ∧ zeroBasedIndex < (rowData.length : Int) then
        zeroBasedIndex
      else -1
    else -1

/-- `Validator.validateText` (Title / RichText). -/
def validateText (value : CellValue) (fieldName : String) : ValidationResult :=
  let typeErrors :=
    match value with
    | .str _ => []
    | .num _ => []
    | _ => ["Field '" ++ fieldName ++ "' must be text or number, got " ++ "nontext"]
  let lenErrors :=
    if 2000 < (jsToString value).length then
      ["Field '" ++ fieldName ++ "' exceeds maximum length of 2000 characters"]
    else []
  let errors := typeErrors ++ lenErrors
  ⟨errors.isEmpty, errors⟩

/-- `Validator.validateNumber`.  In the `Int` model a parsed number is
always finite, so only the NaN branch can fire. -/
def validateNumber (value : CellValue) (fieldName : String) : ValidationResult :=
  match jsToNumber value with
  | none =>
    ⟨false, ["Field '" ++ fieldName ++ "' must be a valid number, got '"
      ++ jsToString value ++ "'"]⟩
  | some _ => ⟨true, []⟩

/-- `Validator.validateDate`: a Date object, a parseable date string, or
a number read as an Excel serial via `(value - 25569) * 86400 * 1000`. -/
def validateDate (value : CellValue) (fieldName : String) : ValidationResult :=
  let invalidValue : ValidationResult :=
    ⟨false, ["Field '" ++ fieldName ++ "' contains invalid date value '"
      ++ jsToString value ++ "'"]⟩
  match value with
  | .date _ => ⟨true, []⟩
  | .str s =>
    match jsParseDate s with
    | some _ => ⟨true, []⟩
    | none => invalidValue
  | .num n =>
    if msInDateRange ((n - 25569) * 86400 * 1000) then ⟨true, []⟩
    else invalidValue
  | _ =>
    ⟨false, ["Field '" ++ fieldName ++ "' must be a valid date, got " ++ "nondate"]⟩

/-- `Validator.validateSelect` (Select / MultiSelect). -/
def validateSelect (value : CellValue) (fieldName : String) : ValidationResult :=
  let typeErrors :=
    match value with
    | .str _ => []
    | .num _ => []
    | _ => ["Field '" ++ fieldName ++ "' must be text for select option, got " ++ "nontext"]
  let stringValue := jsTrim (jsToString value)
  let emptyErrors :=
    if stringValue.length = 0 then
      ["Field '" ++ fieldName ++ "' select option cannot be empty"]
    else []
  let lenErrors :=
    if 100 < stringValue.length then
      ["Field '" ++ fieldName ++ "' select option exceeds maximum length of 100 characters"]
    else []
  let errors := typeErrors ++ emptyErrors ++ lenErrors
  ⟨errors.isEmpty, errors⟩

/-- `Validator.validateCheckbox`: booleans, the eight case-insensitive
string tokens, and the numbers 0 and 1. -/
def validateCheckbox (value : CellValue) (fieldName : String) : ValidationResult :=
  let reject : ValidationResult :=
    ⟨false, ["Field '" ++ fieldName ++ "' must be a boolean value, got '"
      ++ jsToString value ++ "'"]⟩
  match value with
  | .boolean _ => ⟨true, []⟩
  | .str s =>
    if checkboxTokens.contains (jsTrim (jsToLower s)) then ⟨true, []⟩ else reject
  | .num n => if n = 0 ∨ n = 1 then ⟨true, []⟩ else reject
  | _ => reject

/-- `Validator.validateUrl`. -/
def validateUrl (value : CellValue) (fieldName : String) : ValidationResult :=
  match value with
  | .str s =>
    let patErrors :=
      if !urlPattern s then
        ["Field '" ++ fieldName ++ "' must be a valid HTTP/HTTPS URL, got '" ++ s ++ "'"]
      else []
    let lenErrors :=
      if 2000 < s.length then
        ["Field '" ++ fieldName ++ "' URL exceeds maximum length of 2000 characters"]
      else []
    let errors := patErrors ++ lenErrors
    ⟨errors.isEmpty, errors⟩
  | _ =>
    ⟨false, ["Field '" ++ fieldName ++ "' must be a valid URL string, got " ++ "nonstring"]⟩

/-- `Validator.validateEmail`. -/
def validateEmail (value : CellValue) (fieldName : String) : ValidationResult :=
  match value with
  | .str s =>
    let patErrors :=
      if !emailPattern s then
        ["Field '" ++ fieldName ++ "' must be a valid email address, got '" ++ s ++ "'"]
      else []
    let lenErrors :=
      if 320 < s.length then
        ["Field '" ++ fieldName ++ "' email exceeds maximum length of 320 characters"]
      else []
    let errors := patErrors ++ lenErrors
    ⟨errors.isEmpty, errors⟩
  | _ =>
    ⟨false, ["Field '" ++ fieldName ++ "' must be a valid email string, got " ++ "nonstring"]⟩

/-- `Validator.validatePhoneNumber`: a string or number whose trimmed
rendering matches `CONSTANTS.PATTERNS.PHONE` and is at most 50
characters.  The pattern imposes no minimum digit count. -/
def validatePhoneNumber (value : CellValue) (fieldName : String) : ValidationResult :=
  let isTextual := match value with | .str _ => true | .num _ => true | _ => false
  if !isTextual then
    ⟨false, ["Field '" ++ fieldName ++ "' must be a valid phone number, got " ++ "nontext"]⟩
  else
    let stringValue := jsTrim (jsToString value)
    let patErrors :=
      if !phonePattern stringValue then
        ["Field '" ++ fieldName ++ "' must be a valid phone number format, got '"
          ++ jsToString value ++ "'"]
      else []
    let lenErrors :=
      if 50 < stringValue.length then
        ["Field '" ++ fieldName ++ "' phone number exceeds maximum length of 50 characters"]
      else []
    let errors := patErrors ++ lenErrors
    ⟨errors.isEmpty, errors⟩

/-- `Validator.validateCellValue`: required/empty handling, then dispatch
on the declared data type. -/
def validateCellValue (value : CellValue) (mapping : ColumnMapping) : ValidationResult :=
  let fieldName := mapping.spreadsheetColumn ++ " (" ++ mapping.notionPropertyName ++ ")"
  if mapping.isRequired ∧ isEmpty value then
    ⟨false, ["Required field '" ++ fieldName ++ "' is empty"]⟩
  else if isEmpty value then ⟨true, []⟩
  else if mapping.dataType = "title" ∨ mapping.dataType = "rich_text" then
    validateText value fieldName
  else if mapping.dataType = "number" then validateNumber value fieldName
  else if mapping.dataType = "date" then validateDate value fieldName
  else if mapping.dataType = "select" ∨ mapping.dataType = "multi_select" then
    validateSelect value fieldName
  else if mapping.dataType = "checkbox" then validateCheckbox value fieldName
  else if mapping.dataType = "url" then validateUrl value fieldName
  else if mapping.dataType = "email" then validateEmail value fieldName
  else if mapping.dataType = "phone_number" then validatePhoneNumber value fieldName
  else
    ⟨false, ["Unknown data type '" ++ mapping.dataType ++ "' for field '"
      ++ fieldName ++ "'"]⟩

/-- One step of the `validateRowData` loop over a target mapping. -/
def rowErrorsFor (rowData : List CellValue) (m : ColumnMapping) : List String :=
  let columnIndex := getColumnIndex m.spreadsheetColumn rowData
  if columnIndex = -1 then
    ["Column '" ++ m.spreadsheetColumn ++ "' not found in row data"]
  else
    (validateCellValue (rowData.getD columnIndex.toNat .empty) m).errors

/-- `Validator.validateRowData`: structural checks, then per-target-
mapping validation, accumulating every error. -/
def validateRowData (rowData : List CellValue) (columnMappings : List ColumnMapping) :
    ValidationResult :=
  if rowData.length < 3 then
    ⟨false, ["Row data must have at least 3 columns"]⟩
  else
    let targetMappings := columnMappings.filter (fun m => m.isTarget)
    if targetMappings.isEmpty then
      ⟨false, ["No target column mappings found"]⟩
    else
      let errors := targetMappings.flatMap (rowErrorsFor rowData)
      ⟨errors.isEmpty, errors⟩

end Validator

namespace Validator

/-- The reserved Notion property names of `Validator.validateMapping`. -/
def reservedWords : List String :=
  ["id", "created_time", "last_edited_time", "created_by", "last_edited_by"]

/-- `Validator.validateMapping`: per-entry structural checks. -/
def validateMapping (mapping : ColumnMapping) : ValidationResult :=
  let colErrors :=
    if jsTrim mapping.spreadsheetColumn = "" then
      ["Spreadsheet column name is required"] else []
  let propReqErrors :=
    if jsTrim mapping.notionPropertyName = "" then
      ["Notion property name is required"] else []
  let typeReqErrors :=
    if jsTrim mapping.dataType = "" then ["Data type is required"] else []
  let typeValErrors :=
    if mapping.dataType ≠ "" ∧ ¬ mapping.dataType ∈ dataTypeValues then
      ["Invalid data type '" ++ mapping.dataType ++ "'"] else []
  let nameErrors :=
    if mapping.notionPropertyName ≠ "" then
      (if 100 < mapping.notionPropertyName.length then
        ["Notion property name exceeds maximum length of 100 characters"] else [])
      ++
      (if (jsToLower mapping.notionPropertyName) ∈ reservedWords then
        ["'" ++ mapping.notionPropertyName ++ "' is a reserved property name"] else [])
    else []
  let errors := colErrors ++ propReqErrors ++ typeReqErrors ++ typeValErrors ++ nameErrors
  ⟨errors.isEmpty, errors⟩

/-- The loop of `Validator.findDuplicates`: `seen` and `dups` mirror the
two insertion-ordered sets. -/
def findDuplicatesAux : List String → List String → List String → List String
  | [], _, dups => dups
  | x :: rest, seen, dups =>
    if x ∈ seen then
      findDuplicatesAux rest seen (if x ∈ dups then dups else dups ++ [x])
    else
      findDuplicatesAux rest (seen ++ [x]) dups

/-- `Validator.findDuplicates`: the elements occurring at least twice, in
order of second occurrence. -/
def findDuplicates (array : List String) : List String :=
  findDuplicatesAux array [] []

/-- The trimmed, non-blank spreadsheet columns of a mapping list (the
`spreadsheetColumns` local of `validateMappings`). -/
def trimmedColumns (mappings : List ColumnMapping) : List String :=
  (mappings.map (fun m => jsTrim m.spreadsheetColumn)).filter (fun s => s ≠ "")

/-- The trimmed, non-blank Notion property names of a mapping list. -/
def trimmedProperties (mappings : List ColumnMapping) : List String :=
  (mappings.map (fun m => jsTrim m.notionPropertyName)).filter (fun s => s ≠ "")

/-- The duplicate-columns message `validateMappings` would produce. -/
def dupColumnsMsg (mappings : List ColumnMapping) : String :=
  "Duplicate spreadsheet columns: "
    ++ String.intercalate ", " (findDuplicates (trimmedColumns mappings))

/-- The duplicate-properties message `validateMappings` would produce. -/
def dupPropertiesMsg (mappings : List ColumnMapping) : String :=
  "Duplicate Notion properties: "
    ++ String.intercalate ", " (findDuplicates (trimmedProperties mappings))

/-- `Validator.validateMappings`: per-entry validation, duplicate checks
over the whole list, and the exactly-one-Title rule over the active
(`isTarget`) subset. -/
def validateMappings (mappings : List ColumnMapping) : ValidationResult :=
  if mappings.isEmpty then ⟨false, ["Column mappings are required"]⟩
  else
    let indivErrors := mappings.enum.flatMap (fun p =>
      (validateMapping p.2).errors.map
        (fun e => "Mapping " ++ (p.1 + 1).repr ++ ": " ++ e))
    let dupColErrors :=
      if (findDuplicates (trimmedColumns mappings)).isEmpty then []
      else [dupColumnsMsg mappings]
    let dupPropErrors :=
      if (findDuplicates (trimmedProperties mappings)).isEmpty then []
      else [dupPropertiesMsg mappings]
    let titleMappings := mappings.filter (fun m => m.dataType = "title" ∧ m.isTarget)
    let titleErrors :=
      if titleMappings.length = 0 then
        ["At least one title property mapping is required"]
      else if 1 < titleMappings.length then
        ["Only one title property mapping is allowed"]
      else []
    let errors := indivErrors ++ dupColErrors ++ dupPropErrors ++ titleErrors
    ⟨errors.isEmpty, errors⟩

end Validator

/-! ## `src/core/DataMapper.ts` -/

/-- A typed Notion property payload (`NotionProperty` of `src/types`),
one variant per data type; `Option` models the nullable fields. -/
inductive NotionProperty where
  | title (texts : List String)
  | richText (texts : List String)
  | number (n : Option Int)
  | select (name : Option String)
  | multiSelect (names : List String)
  | date (start : Option String)
  | checkbox (b : Bool)
  | url (u : Option String)
  | email (e : Option String)
  | phoneNumber (p : Option String)
deriving DecidableEq, Repr

/-- The wire `type` tag of a property (`prop.type` in JS). -/
def NotionProperty.typeName : NotionProperty → String
  | .title _ => "title"
  | .richText _ => "rich_text"
  | .number _ => "number"
  | .select _ => "select"
  | .multiSelect _ => "multi_select"
  | .date _ => "date"
  | .checkbox _ => "checkbox"
  | .url _ => "url"
  | .email _ => "email"
  | .phoneNumber _ => "phone_number"

/-- `NotionPageData` of `src/types`: the `properties` object, modelled as
an insertion-ordered association list. -/
structure NotionPageData where
  properties : List (String × NotionProperty)
deriving DecidableEq, Repr

/-- Decidable equality for `Except` results (used to evaluate the
embedding at concrete inputs). -/
instance {ε α : Type} [DecidableEq ε] [DecidableEq α] :
    DecidableEq (Except ε α)
  | .error a, .error b =>
    if h : a = b then .isTrue (by rw [h]) else .isFalse (by simp [h])
  | .error _, .ok _ => .isFalse (by simp)
  | .ok _, .error _ => .isFalse (by simp)
  | .ok a, .ok b =>
    if h : a = b then .isTrue (by rw [h]) else .isFalse (by simp [h])

/-- JS object property assignment `obj[name] = p`: overwrite in place or
append. -/
def setProp (props : List (String × NotionProperty)) (name : String)
    (p : NotionProperty) : List (String × NotionProperty) :=
  if props.any (fun kv => kv.1 = name) then
    props.map (fun kv => if kv.1 = name then (name, p) else kv)
  else props ++ [(name, p)]

namespace DataMapper

/-- `DataMapper.isEmpty` (same definition as the validator's). -/
def isEmpty : CellValue → Bool := Validator.isEmpty

/-- `DataMapper.getColumnIndex` (same definition as the validator's). -/
def getColumnIndex : String → List CellValue → Int := Validator.getColumnIndex

/-- `DataMapper.convertToTitle`. -/
def convertToTitle (value : CellValue) : Except String NotionProperty :=
  .ok (.title [strTake (jsTrim (jsToString value)) 2000])

/-- `DataMapper.convertToRichText`. -/
def convertToRichText (value : CellValue) : Except String NotionProperty :=
  .ok (.richText [strTake (jsTrim (jsToString value)) 2000])

/-- `DataMapper.convertToNumber`. -/
def convertToNumber (value : CellValue) : Except String NotionProperty :=
  match jsToNumber value with
  | none => .error ("Invalid number value: " ++ jsToString value)
  | some n => .ok (.number (some n))

/-- `DataMapper.convertToDate`: Date objects and parseable strings pass
through `Date`; a number is an Excel serial converted via
`(value - 25569) * 86400 * 1000`; the result is formatted `YYYY-MM-DD`
through `toISOString`. -/
def convertToDate (value : CellValue) : Except String NotionProperty :=
  let bad : Except String NotionProperty :=
    .error ("Invalid date value: " ++ jsToString value)
  match value with
  | .date ms => .ok (.date (some (isoDateOfMs ms)))
  | .str s =>
    match jsParseDate s with
    | some ms => .ok (.date (some (isoDateOfMs ms)))
    | none => bad
  | .num n =>
    let ms := (n - 25569) * 86400 * 1000
    if msInDateRange ms then .ok (.date (some (isoDateOfMs ms))) else bad
  | _ => bad

/-- `DataMapper.convertToCheckbox`: booleans pass through; every number
coerces (`value !== 0`); the eight string tokens map to their boolean. -/
def convertToCheckbox (value : CellValue) : Except String NotionProperty :=
  let bad : Except String NotionProperty :=
    .error ("Invalid checkbox value: " ++ jsToString value)
  match value with
  | .boolean b => .ok (.checkbox b)
  | .num n => .ok (.checkbox (n ≠ 0))
  | .str s =>
    let lowerValue := jsTrim (jsToLower s)
    if lowerValue ∈ ["true", "yes", "1", "on"] then .ok (.checkbox true)
    else if lowerValue ∈ ["false", "no", "0", "off"] then .ok (.checkbox false)
    else bad
  | _ => bad

/-- `DataMapper.convertToSelect`. -/
def convertToSelect (value : CellValue) : Except String NotionProperty :=
  let selectValue := jsTrim (jsToString value)
  if selectValue.length = 0 then .error "Select option cannot be empty"
  else if 100 < selectValue.length then .error "Select option exceeds maximum length"
  else .ok (.select (some selectValue))

/-- `DataMapper.convertToMultiSelect`: split on commas, trim, drop empty
tokens, cap at 100 options of at most 100 characters each. -/
def convertToMultiSelect (value : CellValue) : Except String NotionProperty :=
  let stringValue := jsTrim (jsToString value)
  if stringValue.length = 0 then .ok (.multiSelect [])
  else
    .ok (.multiSelect
      ((((stringValue.splitOn ",").map jsTrim).filter
        (fun o => 0 < o.length)).take 100 |>.map (fun o => strTake o 100)))

/-- `DataMapper.convertToUrl`. -/
def convertToUrl (value : CellValue) : Except String NotionProperty :=
  let urlValue := jsTrim (jsToString value)
  if !urlPattern urlValue then .error ("Invalid URL format: " ++ jsToString value)
  else .ok (.url (some (strTake urlValue 2000)))

/-- `DataMapper.convertToEmail`. -/
def convertToEmail (value : CellValue) : Except String NotionProperty :=
  let emailValue := jsTrim (jsToString value)
  if !emailPattern emailValue then .error ("Invalid email format: " ++ jsToString value)
  else .ok (.email (some (strTake emailValue 320)))

/-- `DataMapper.convertToPhoneNumber`. -/
def convertToPhoneNumber (value : CellValue) : Except String NotionProperty :=
  let phoneValue := jsTrim (jsToString value)
  if !phonePattern phoneValue then
    .error ("Invalid phone number format: " ++ jsToString value)
  else .ok (.phoneNumber (some (strTake phoneValue 50)))

/-- `DataMapper.createEmptyNotionProperty`. -/
def createEmptyNotionProperty (dataType : String) : NotionProperty :=
  if dataType = "title" then .title []
  else if dataType = "rich_text" then .richText []
  else if dataType = "number" then .number none
  else if dataType = "date" then .date none
  else if dataType = "checkbox" then .checkbox false
  else if dataType = "select" then .select none
  else if dataType = "multi_select" then .multiSelect []
  else if dataType = "url" then .url none
  else if dataType = "email" then .email none
  else if dataType = "phone_number" then .phoneNumber none
  else .richText []

/-- `DataMapper.convertToNotionProperty`: empty values take the typed
empty variant, otherwise dispatch on the declared data type. -/
def convertToNotionProperty (value : CellValue) (mapping : ColumnMapping) :
    Except String NotionProperty :=
  if isEmpty value then .ok (createEmptyNotionProperty mapping.dataType)
  else if mapping.dataType = "title" then convertToTitle value
  else if mapping.dataType = "rich_text" then convertToRichText value
  else if mapping.dataType = "number" then convertToNumber value
  else if mapping.dataType = "date" then convertToDate value
  else if mapping.dataType = "checkbox" then convertToCheckbox value
  else if mapping.dataType = "select" then convertToSelect value
  else if mapping.dataType = "multi_select" then convertToMultiSelect value
  else if mapping.dataType = "url" then convertToUrl value
  else if mapping.dataType = "email" then convertToEmail value
  else if mapping.dataType = "phone_number" then convertToPhoneNumber value
  else .error ("Unsupported data type: " ++ mapping.dataType)

/-- The per-mapping loop of `mapRowToNotionPage`: a missing column or a
failing non-required conversion is skipped; a failing required
conversion aborts the row. -/
def mapLoop (rowData : List CellValue) :
    List ColumnMapping → List (String × NotionProperty) →
    Except String (List (String × NotionProperty))
  | [], acc => .ok acc
  | m :: rest, acc =>
    let columnIndex := getColumnIndex m.spreadsheetColumn rowData
    if columnIndex = -1 then mapLoop rowData rest acc
    else
      let cellValue := rowData.getD columnIndex.toNat .empty
      if !m.isRequired ∧ isEmpty cellValue then mapLoop rowData rest acc
      else
        match convertToNotionProperty cellValue m with
        | .ok p => mapLoop rowData rest (setProp acc m.notionPropertyName p)
        | .error e =>
          if m.isRequired then
            .error ("Required field '" ++ m.notionPropertyName
              ++ "' mapping failed: " ++ e)
          else mapLoop rowData rest acc

/-- `DataMapper.mapRowToNotionPage`: validate the row, convert each
target mapping, and require a title-typed property in the result. -/
def mapRowToNotionPage (rowData : List CellValue)
    (columnMappings : List ColumnMapping) (rowIndex : Nat) :
    Except String NotionPageData :=
  let validationResult := Validator.validateRowData rowData columnMappings
  if !validationResult.valid then
    .error ("Row " ++ (rowIndex + 1).repr ++ " validation failed: "
      ++ String.intercalate ", " validationResult.errors)
  else
    let targetMappings := columnMappings.filter (fun m => m.isTarget)
    if targetMappings.isEmpty then .error "No target column mappings found"
    else
      match mapLoop rowData targetMappings [] with
      | .error e => .error e
      | .ok props =>
        let hasTitle := props.any (fun kv => kv.2.typeName = "title")
        if !hasTitle then .error "No title property found in mapped data"
        else .ok ⟨props⟩

end DataMapper

/-! ## `src/core/NotionApiClient.ts`

A remote attempt's outcome is drawn from a schedule
`responses : Nat → Except Nat String` giving, per retry count, either the
parsed response (its page id) or the `ApiError` status code thrown by
`makeRequest` (0 stands for a wrapped network/parsing failure).  The
client's observable actions are recorded as a trace of `ClientEvent`s. -/

inductive ClientEvent where
  | rateAcquire
  | attempt
  | sleep (ms : Nat)
deriving DecidableEq, Repr

namespace NotionApiClient

/-- `MAX_RETRIES`. -/
def MAX_RETRIES : Nat := 3

/-- `RETRY_DELAYS` (exponential backoff). -/
def RETRY_DELAYS : List Nat := [1000, 2000, 4000]

/-- `NotionApiClient.shouldRetry` on the status of a thrown `ApiError`:
429 and 5xx retry, everything else is fatal.  (Errors reaching it from
`makeRequest` are always `ApiError`s; wrapped network failures carry
status 0, so the message-sniffing branch is unreachable there.) -/
def shouldRetry (statusCode : Nat) : Bool :=
  statusCode = 429 || 500 ≤ statusCode

/-- `NotionApiClient.makeRequestWithRetry`: attempt, and on a retryable
failure with attempts remaining, sleep the scheduled backoff delay and
recurse with `retryCount + 1`.  The trace records each HTTP attempt and
each backoff sleep; no rate-limiter acquisition happens here. -/
def makeRequestWithRetry (responses : Nat → Except Nat String)
    (retryCount : Nat) : Except Nat String × List ClientEvent :=
  match responses retryCount with
  | .ok v => (.ok v, [.attempt])
  | .error statusCode =>
    if h : MAX_RETRIES ≤ retryCount then (.error statusCode, [.attempt])
    else if shouldRetry statusCode then
      let delay := RETRY_DELAYS.getD retryCount 4000
      let rec_ := makeRequestWithRetry responses (retryCount + 1)
      (rec_.1, .attempt :: .sleep delay :: rec_.2)
    else (.error statusCode, [.attempt])
termination_by MAX_RETRIES - retryCount
decreasing_by simp only [MAX_RETRIES] at *; omega

/-- `NotionApiClient.createPage`: one rate-limiter acquisition, then the
retry wrapper. -/
def createPage (responses : Nat → Except Nat String) :
    Except Nat String × List ClientEvent :=
  let r := makeRequestWithRetry responses 0
  (r.1, .rateAcquire :: r.2)

/-- `NotionApiClient.updatePage`: one rate-limiter acquisition, then the
retry wrapper. -/
def updatePage (responses : Nat → Except Nat String) :
    Except Nat String × List ClientEvent :=
  let r := makeRequestWithRetry responses 0
  (r.1, .rateAcquire :: r.2)

/-- Number of HTTP attempts in a trace. -/
def countAttempts (evs : List ClientEvent) : Nat :=
  evs.countP (fun e => e = .attempt)

/-- Number of rate-limiter acquisitions in a trace. -/
def countRateAcquires (evs : List ClientEvent) : Nat :=
  evs.countP (fun e => e = .rateAcquire)

/-- Does every HTTP attempt in the trace immediately follow a
rate-limiter acquisition?  (`prev` is the event before the list.) -/
def attemptsGatedFrom (prev : Option ClientEvent) : List ClientEvent → Bool
  | [] => true
  | e :: rest =>
    (if e = .attempt then prev = some .rateAcquire else true)
      && attemptsGatedFrom (some e) rest

/-- Every HTTP attempt of the trace is immediately preceded by a
rate-limiter acquisition. -/
def attemptsGated (evs : List ClientEvent) : Bool :=
  attemptsGatedFrom none evs

end NotionApiClient

/-! ## `src/core/TriggerManager.ts` -/

/-- An entry of the orchestrator's bounded error history. -/
structure ErrorHistoryEntry where
  timestamp : Int
  error : String
deriving DecidableEq, Repr

/-- `ProcessingStatus` of `src/types` as used by `TriggerManager`. -/
structure ProcessingStatus where
  isProcessing : Bool
  lastProcessTime : Int
  errorHistory : List ErrorHistoryEntry
deriving DecidableEq, Repr

/-- `ImportResult` of `src/types`: `process` returns success with the
page response id or failure with the caught error. -/
structure ImportResult where
  success : Bool
  resultId : Option String
  error : Option String
deriving DecidableEq, Repr

/-- The externally observable actions of one `processImport` run. -/
inductive TMEvent where
  | createCall (databaseId : String) (payload : NotionPageData)
  | updateCall (pageId : String) (payload : NotionPageData)
  | writeCell (column : Nat) (value : String)
  | notifySuccess
  | notifyError
deriving DecidableEq, Repr

/-- Is the event an outbound remote call? -/
def TMEvent.isRemoteCall : TMEvent → Bool
  | .createCall _ _ => true
  | .updateCall _ _ => true
  | _ => false

namespace TriggerManager

/-- `CONSTANTS.COLUMNS.PRIMARY_KEY` (1-based column B). -/
def PRIMARY_KEY : Nat := 2

/-- The environment of one `processImport` run: the outcomes of each
external collaborator (configuration, mappings, the sheet row, the two
remote operations, the primary-key write-back). -/
structure TMEnv where
  config : Except String String
  mappings : Except String (List ColumnMapping)
  rowData : Except String (List CellValue)
  createResult : Except String String
  updateResult : Except String String
  recordOk : Bool
  now : Int

/-- `TriggerManager.getPrimaryKeyColumnIndex` (1-based to 0-based). -/
def getPrimaryKeyColumnIndex : Int := (PRIMARY_KEY : Int) - 1

/-- The body of `processImport` inside its `try`: load config and
mappings, read the row, validate, map, then update when the reserved
primary-key slot holds a non-blank string and create (plus primary-key
write-back) otherwise.  Returns the outcome and the emitted events. -/
def processImportBody (env : TMEnv) : Except String String × List TMEvent :=
  match env.config with
  | .error e => (.error e, [])
  | .ok databaseId =>
    match env.mappings with
    | .error e => (.error e, [])
    | .ok mappings =>
      match env.rowData with
      | .error e => (.error e, [])
      | .ok rowData =>
        let validationResult := Validator.validateRowData rowData mappings
        if !validationResult.valid then
          (.error ("データ検証エラー: "
            ++ String.intercalate ", " validationResult.errors), [])
        else
          match DataMapper.mapRowToNotionPage rowData mappings 0 with
          | .error e => (.error e, [])
          | .ok notionData =>
            let primaryKeyColumnIndex := getPrimaryKeyColumnIndex
            let existingPageId :=
              if 0 ≤ primaryKeyColumnIndex then
                rowData.getD primaryKeyColumnIndex.toNat .empty
              else .empty
            match existingPageId with
            | .str s =>
              if jsTrim s ≠ "" then
                (env.updateResult, [.updateCall (jsTrim s) notionData])
              else
                createFlow env databaseId notionData
            | _ => createFlow env databaseId notionData
where
  /-- The create branch: `createPage`, then `recordPrimaryKey` (its
  failure is logged, not propagated). -/
  createFlow (env : TMEnv) (databaseId : String) (notionData : NotionPageData) :
      Except String String × List TMEvent :=
    match env.createResult with
    | .error e => (.error e, [.createCall databaseId notionData])
    | .ok pageId =>
      let writes :=
        if 0 ≤ getPrimaryKeyColumnIndex ∧ env.recordOk then
          [TMEvent.writeCell PRIMARY_KEY pageId]
        else []
      (.ok pageId, .createCall databaseId notionData :: writes)

/-- `TriggerManager.handleError`: append to the error history, evicting
the oldest entry beyond 100. -/
def handleError (st : ProcessingStatus) (e : String) (now : Int) :
    ProcessingStatus :=
  let history := st.errorHistory ++ [⟨now, e⟩]
  let history := if 100 < history.length then history.drop 1 else history
  { st with errorHistory := history }

/-- `TriggerManager.processImport`: set the processing flag, run the
body, catch any failure into a failure result (with history append and
error notification), and clear the flag on every path (`finally`). -/
def processImport (env : TMEnv) (st : ProcessingStatus) :
    ImportResult × ProcessingStatus × List TMEvent :=
  let st1 := { st with isProcessing := true, lastProcessTime := env.now }
  let body := processImportBody env
  match body.1 with
  | .ok pageId =>
    (⟨true, some pageId, none⟩,
     { st1 with isProcessing := false },
     body.2 ++ [.notifySuccess])
  | .error e =>
    (⟨false, none, some e⟩,
     { handleError st1 e env.now with isProcessing := false },
     body.2 ++ [.notifyError])

end TriggerManager

/-! ## Theorems -/

namespace NotionApiClient

/-- Helper: the retry wrapper itself never acquires the rate limiter —
its trace holds attempts and backoff sleeps only. -/
theorem mrwr_no_rate (responses : Nat → Except Nat String) (k : Nat) :
    countRateAcquires (makeRequestWithRetry responses k).2 = 0 := by
  induction k using makeRequestWithRetry.induct responses with
  | case1 k v hv =>
    rw [makeRequestWithRetry.eq_def, hv]
    simp [countRateAcquires]
  | case2 k st hst hle =>
    rw [makeRequestWithRetry.eq_def, hst]
    simp [hle, countRateAcquires]
  | case3 k st hst hlt hretry ih =>
    rw [makeRequestWithRetry.eq_def, hst]
    simp only [dif_neg hlt, if_pos hretry]
    simpa [countRateAcquires] using ih
  | case4 k st hst hlt hretry =>
    rw [makeRequestWithRetry.eq_def, hst]
    simp [hlt, hretry, countRateAcquires]

/-- Claim C2, counterexample: on an operation whose first attempt fails
with HTTP 429 and whose retry succeeds, `createPage` makes two HTTP
attempts but acquires the rate limiter only once, and the retry attempt
is immediately preceded by the backoff sleep, not by a rate-limiter
acquisition — so not every attempt in a retry sequence is preceded by
acquiring the RateLimiter. -/
theorem retry_bypasses_rate_gate_cex :
    attemptsGated
      (createPage (fun n => if n = 0 then .error 429 else .ok "page-id")).2
      = false ∧
    countAttempts
      (createPage (fun n => if n = 0 then .error 429 else .ok "page-id")).2
      = 2 ∧
    countRateAcquires
      (createPage (fun n => if n = 0 then .error 429 else .ok "page-id")).2
      = 1 := by
  have s1 : makeRequestWithRetry
      (fun n => if n = 0 then .error 429 else .ok "page-id") 1
      = (.ok "page-id", [.attempt]) := by
    rw [makeRequestWithRetry.eq_def]; simp
  have s0 : makeRequestWithRetry
      (fun n => if n = 0 then .error 429 else .ok "page-id") 0
      = (.ok "page-id", [.attempt, .sleep 1000, .attempt]) := by
    rw [makeRequestWithRetry.eq_def]
    simp [MAX_RETRIES, shouldRetry, RETRY_DELAYS, s1]
  simp only [createPage, s0]
  decide

/-- Claim C2, amended: the RateLimiter is acquired exactly once per
public operation (`createPage` / `updatePage`), before the first HTTP
attempt; retry attempts sleep the scheduled backoff delay and reissue
the request without re-acquiring the rate gate. -/
theorem rate_gate_acquired_once (responses : Nat → Except Nat String) :
    countRateAcquires (createPage responses).2 = 1 ∧
    (createPage responses).2.head? = some .rateAcquire ∧
    countRateAcquires (updatePage responses).2 = 1 ∧
    (updatePage responses).2.head? = some .rateAcquire := by
  have h := mrwr_no_rate responses 0
  simp only [countRateAcquires] at h ⊢
  simp [createPage, updatePage, h]

/-- Claim C3: an operation that always fails with HTTP 429 is attempted
exactly 4 times (1 initial + 3 retries) and then surfaces the terminal
429 error; an operation failing with HTTP 400 is attempted exactly once
and the error surfaces immediately with no retry. -/
theorem retry_attempt_counts :
    (∀ responses : Nat → Except Nat String, (∀ n, responses n = .error 429) →
      countAttempts (makeRequestWithRetry responses 0).2 = 4 ∧
        (makeRequestWithRetry responses 0).1 = .error 429) ∧
    (∀ responses : Nat → Except Nat String, responses 0 = .error 400 →
      countAttempts (makeRequestWithRetry responses 0).2 = 1 ∧
        (makeRequestWithRetry responses 0).1 = .error 400) := by
  constructor
  · intro responses h
    have s3 : makeRequestWithRetry responses 3 = (.error 429, [.attempt]) := by
      rw [makeRequestWithRetry.eq_def, h 3]; simp [MAX_RETRIES]
    have s2 : makeRequestWithRetry responses 2 =
        (.error 429, [.attempt, .sleep 4000, .attempt]) := by
      rw [makeRequestWithRetry.eq_def, h 2]
      simp [MAX_RETRIES, shouldRetry, RETRY_DELAYS, s3]
    have s1 : makeRequestWithRetry responses 1 =
        (.error 429, [.attempt, .sleep 2000, .attempt, .sleep 4000, .attempt]) := by
      rw [makeRequestWithRetry.eq_def, h 1]
      simp [MAX_RETRIES, shouldRetry, RETRY_DELAYS, s2]
    have s0 : makeRequestWithRetry responses 0 =
        (.error 429, [.attempt, .sleep 1000, .attempt, .sleep 2000, .attempt,
          .sleep 4000, .attempt]) := by
      rw [makeRequestWithRetry.eq_def, h 0]
      simp [MAX_RETRIES, shouldRetry, RETRY_DELAYS, s1]
    rw [s0]
    exact ⟨by decide, rfl⟩
  · intro responses h
    rw [makeRequestWithRetry.eq_def, h]
    simp [MAX_RETRIES, shouldRetry, countAttempts]

/-- Witness for C3 at the constant schedules. -/
theorem retry_attempt_counts_witness :
    (countAttempts
        (makeRequestWithRetry (fun _ => .error 429) 0).2 = 4 ∧
      (makeRequestWithRetry (fun _ => .error 429) 0).1 = .error 429) ∧
    (countAttempts
        (makeRequestWithRetry (fun _ => .error 400) 0).2 = 1 ∧
      (makeRequestWithRetry (fun _ => .error 400) 0).1 = .error 400) :=
  ⟨retry_attempt_counts.1 (fun _ => .error 429) (fun _ => rfl),
   retry_attempt_counts.2 (fun _ => .error 400) rfl⟩

end NotionApiClient

namespace DataMapper

/-- Claim C5: a numeric Date cell is treated as a spreadsheet epoch
serial, converted via `timestamp_ms = (serial - 25569) * 86400 * 1000`
and formatted as the `YYYY-MM-DD` of the resulting UTC day; in
particular serial 44927 converts to "2023-01-01". -/
theorem date_serial_conversion :
    (∀ n : Int, msInDateRange ((n - 25569) * 86400 * 1000) = true →
      convertToDate (.num n) =
        .ok (.date (some (formatYMD (civilFromDays (n - 25569)))))) ∧
    convertToDate (.num 44927) = .ok (.date (some "2023-01-01")) := by
  constructor
  · intro n h
    have hdiv : ((n - 25569) * 86400 * 1000).fdiv 86400000 = n - 25569 := by
      have hms : (n - 25569) * 86400 * 1000 = (n - 25569) * 86400000 := by ring
      rw [hms, Int.mul_fdiv_cancel _ (by norm_num)]
    simp [convertToDate, h, isoDateOfMs, hdiv]
  · rfl

/-- Witness for C5 at serial 44927. -/
theorem date_serial_conversion_witness :
    msInDateRange ((44927 - 25569) * 86400 * 1000) = true ∧
      convertToDate (.num 44927) =
        .ok (.date (some (formatYMD (civilFromDays (44927 - 25569))))) :=
  ⟨by decide, date_serial_conversion.1 44927 (by decide)⟩

/-- Claim C6, counterexample: the converter coerces the number 2 to a
checkbox (any non-zero number becomes true) while the validator rejects
every number other than 0 and 1 — the two acceptance sets differ. -/
theorem checkbox_sets_differ_cex :
    (convertToCheckbox (.num 2)).isOk = true ∧
    (Validator.validateCheckbox (.num 2) "A (Done)").valid = false := by
  decide

/-- Claim C6, amended: the converter and the validator accept exactly
the same booleans and strings, but on numbers the converter accepts
every value (non-zero coerces to true) where the validator accepts only
0 and 1: the converter succeeds exactly when the validator accepts the
value or the value is a number. -/
theorem checkbox_accept_characterization (v : CellValue) (f : String) :
    (convertToCheckbox v).isOk = true ↔
      ((Validator.validateCheckbox v f).valid = true ∨ ∃ n : Int, v = .num n) := by
  cases v with
  | boolean b =>
    simp [convertToCheckbox, Validator.validateCheckbox, Except.isOk, Except.toBool]
  | num n =>
    simp [convertToCheckbox, Validator.validateCheckbox, Except.isOk, Except.toBool]
  | str s =>
    simp only [convertToCheckbox, Validator.validateCheckbox, checkboxTokens]
    split_ifs with h1 h2 h3 <;>
      simp_all [Except.isOk, Except.toBool, List.contains_iff_exists_mem_beq]
  | date ms =>
    simp [convertToCheckbox, Validator.validateCheckbox, Except.isOk, Except.toBool]
  | empty =>
    simp [convertToCheckbox, Validator.validateCheckbox, Except.isOk, Except.toBool]

end DataMapper

namespace Validator

/-- Claim C7: the phone-number pattern `^[+]?[\d\s\-()]+$` imposes no
minimum digit count, so the three-digit string "123" — fewer than the
documented 10 significant digits — validates successfully. -/
theorem phone_short_accepted :
    validatePhoneNumber (.str "123") "C (Phone)" = ⟨true, []⟩ ∧
    "123".data.countP (fun c => c.isDigit) = 3 := by
  decide

end Validator

namespace DataMapper

/-- Claim C10: every page payload `mapRowToNotionPage` returns (rather
than throws) contains at least one title-typed property — a payload
without one is rejected with a MappingError before being returned. -/
theorem mapped_page_has_title (rowData : List CellValue)
    (columnMappings : List ColumnMapping) (rowIndex : Nat) (pd : NotionPageData)
    (h : mapRowToNotionPage rowData columnMappings rowIndex = .ok pd) :
    pd.properties.any (fun kv => kv.2.typeName = "title") = true := by
  unfold mapRowToNotionPage at h
  dsimp only at h
  split at h
  · simp at h
  · split at h
    · simp at h
    · split at h
      · simp at h
      · rename_i props hloop
        split at h
        · simp at h
        · rename_i htitle
          simp only [Except.ok.injEq] at h
          subst h
          simpa using htitle

/-- Witness for C10 on a concrete successfully mapped row. -/
theorem mapped_page_has_title_witness :
    (⟨[("Name", NotionProperty.title ["Task"])]⟩ : NotionPageData).properties.any
      (fun kv => kv.2.typeName = "title") = true :=
  mapped_page_has_title [.str "chk", .str "", .str "Task"]
    [⟨"2", "Name", "title", true, true⟩] 0
    ⟨[("Name", NotionProperty.title ["Task"])]⟩ (by rfl)

end DataMapper

namespace TriggerManager

/-- Claim C4: `processImport` is a total function into a result
discriminated by success/failure — in the embedding every failure of a
step is caught and returned as a failure result, never propagated — and
on every return path, success or failure, the `isProcessing` flag is
false afterwards; the result is a success exactly when the body ran
through. -/
theorem process_total_and_idle (env : TMEnv) (st : ProcessingStatus) :
    ((processImport env st).2.1).isProcessing = false ∧
    ((processImport env st).1).success = (processImportBody env).1.isOk := by
  unfold processImport
  dsimp only
  split <;> simp_all [Except.isOk, Except.toBool]

end TriggerManager

namespace TriggerManager

/-- Claim C1: once configuration, row, validation and mapping succeed,
a row whose reserved primary-key slot (column index 1) holds a
non-blank string invokes exactly one remote call, `update` with that
(trimmed) id — never `create`; a row whose slot is absent or blank
invokes exactly one remote call, `create` with the configured database
id, and when the create succeeds and the write-back is able to run, the
returned page id is persisted into the primary-key column. -/
theorem upsert_decision (env : TMEnv) (st : ProcessingStatus)
    (dbId : String) (mappings : List ColumnMapping) (rowData : List CellValue)
    (nd : NotionPageData)
    (hc : env.config = .ok dbId)
    (hm : env.mappings = .ok mappings)
    (hr : env.rowData = .ok rowData)
    (hv : (Validator.validateRowData rowData mappings).valid = true)
    (hmap : DataMapper.mapRowToNotionPage rowData mappings 0 = .ok nd) :
    (∀ s : String, rowData.getD 1 .empty = .str s → jsTrim s ≠ "" →
      (processImport env st).2.2.filter TMEvent.isRemoteCall
        = [.updateCall (jsTrim s) nd]) ∧
    ((rowData.getD 1 .empty = .empty ∨
        (∃ s, rowData.getD 1 .empty = .str s ∧ jsTrim s = "")) →
      (processImport env st).2.2.filter TMEvent.isRemoteCall
        = [.createCall dbId nd] ∧
      (∀ pid, env.createResult = .ok pid → env.recordOk = true →
        TMEvent.writeCell PRIMARY_KEY pid ∈ (processImport env st).2.2)) := by
  have hbody : processImportBody env =
      (match rowData.getD 1 .empty with
       | .str s =>
         if jsTrim s ≠ "" then
           (env.updateResult, [.updateCall (jsTrim s) nd])
         else processImportBody.createFlow env dbId nd
       | _ => processImportBody.createFlow env dbId nd) := by
    unfold processImportBody
    rw [hc, hm, hr]
    simp only [hv, hmap, Bool.not_true]
    norm_num [getPrimaryKeyColumnIndex, PRIMARY_KEY]
  constructor
  · intro s hs htrim
    unfold processImport
    dsimp only
    rw [hbody, hs]
    dsimp only
    rw [if_pos htrim]
    cases env.updateResult <;> simp [TMEvent.isRemoteCall]
  · intro hblank
    have hflow : processImportBody env = processImportBody.createFlow env dbId nd := by
      rcases hblank with he | ⟨s, hs, htrim⟩
      · rw [hbody, he]
      · rw [hbody, hs]
        dsimp only
        simp [htrim]
    constructor
    · unfold processImport
      dsimp only
      rw [hflow]
      unfold processImportBody.createFlow
      cases env.createResult <;>
        simp [TMEvent.isRemoteCall, getPrimaryKeyColumnIndex, PRIMARY_KEY]
    · intro pid hcr hrec
      unfold processImport
      dsimp only
      rw [hflow]
      unfold processImportBody.createFlow
      rw [hcr]
      simp [getPrimaryKeyColumnIndex, PRIMARY_KEY, hrec]

/-- A one-mapping configuration used to witness C1. -/
def sampleMappings : List ColumnMapping := [⟨"2", "Name", "title", true, true⟩]

/-- The payload the sample rows map to. -/
def samplePayload : NotionPageData := ⟨[("Name", NotionProperty.title ["Task"])]⟩

/-- An environment whose row carries the remote id "page-123". -/
def envUpdate : TMEnv :=
  ⟨.ok "db-1", .ok sampleMappings, .ok [.str "x", .str "page-123", .str "Task"],
   .ok "new-id", .ok "page-123", true, 5⟩

/-- An environment whose row has a blank primary-key slot. -/
def envCreate : TMEnv :=
  ⟨.ok "db-1", .ok sampleMappings, .ok [.str "x", .str "", .str "Task"],
   .ok "new-id", .ok "x", true, 5⟩

/-- Witness for C1: the update decision on a row holding "page-123" and
the create-and-persist decision on a row with a blank slot. -/
theorem upsert_decision_witness :
    ((processImport envUpdate ⟨false, 0, []⟩).2.2.filter TMEvent.isRemoteCall
      = [.updateCall "page-123" samplePayload]) ∧
    ((processImport envCreate ⟨false, 0, []⟩).2.2.filter TMEvent.isRemoteCall
      = [.createCall "db-1" samplePayload]) ∧
    TMEvent.writeCell PRIMARY_KEY "new-id"
      ∈ (processImport envCreate ⟨false, 0, []⟩).2.2 := by
  have hu := (upsert_decision envUpdate ⟨false, 0, []⟩ "db-1" sampleMappings
    [.str "x", .str "page-123", .str "Task"] samplePayload
    rfl rfl rfl (by decide) (by rfl)).1 "page-123" rfl (by decide)
  have hcrt := (upsert_decision envCreate ⟨false, 0, []⟩ "db-1" sampleMappings
    [.str "x", .str "", .str "Task"] samplePayload
    rfl rfl rfl (by decide) (by rfl)).2 (.inr ⟨"", rfl, rfl⟩)
  exact ⟨by simpa using hu, hcrt.1, hcrt.2 "new-id" rfl rfl⟩

end TriggerManager

namespace Validator

/-- Claim C8, counterexample: for a mapping naming column Z (resolved
index 25) over a 3-cell row, the diagnostic is the bare
"Column 'Z' not found in row data" — it names neither the resolved
numeric index 25 nor the row length 3. -/
theorem not_found_message_bare_cex :
    (validateRowData [.str "a", .str "b", .str "c"]
        [⟨"Z", "P", "title", true, true⟩]).errors
      = ["Column 'Z' not found in row data"] ∧
    ¬ ("25".data <:+: "Column 'Z' not found in row data".data) ∧
    ¬ ("3".data <:+: "Column 'Z' not found in row data".data) := by
  decide

/-- Claim C8, amended: whenever an active mapping's column reference
fails to resolve inside the row, row validation produces a diagnostic
naming the offending column — and only the column: the fixed message
"Column '<name>' not found in row data", with no resolved index and no
row length. -/
theorem not_found_message_exact (rowData : List CellValue)
    (mappings : List ColumnMapping)
    (m : ColumnMapping) (hm : m ∈ mappings) (ht : m.isTarget = true)
    (hlen : 3 ≤ rowData.length)
    (hidx : getColumnIndex m.spreadsheetColumn rowData = -1) :
    ("Column '" ++ m.spreadsheetColumn ++ "' not found in row data")
      ∈ (validateRowData rowData mappings).errors := by
  unfold validateRowData
  rw [if_neg (by omega)]
  have hmem : m ∈ mappings.filter (fun m => m.isTarget) :=
    List.mem_filter.mpr ⟨hm, by simp [ht]⟩
  have hne : ¬ ((mappings.filter (fun m => m.isTarget)).isEmpty = true) := by
    intro h
    rw [List.isEmpty_iff] at h
    rw [h] at hmem
    simp at hmem
  rw [if_neg hne]
  dsimp only
  refine List.mem_flatMap.mpr ⟨m, hmem, ?_⟩
  unfold rowErrorsFor
  rw [if_pos hidx]
  simp

/-- Witness for C8 at the column-Z mapping over a 3-cell row. -/
theorem not_found_message_exact_witness :
    ("Column '" ++ "Z" ++ "' not found in row data")
      ∈ (validateRowData [.str "a", .str "b", .str "c"]
          [⟨"Z", "P", "title", true, true⟩]).errors :=
  not_found_message_exact [.str "a", .str "b", .str "c"]
    [⟨"Z", "P", "title", true, true⟩] ⟨"Z", "P", "title", true, true⟩
    (by decide) rfl (by decide) (by decide)

end Validator

namespace Validator

/-- Helper: the `findDuplicates` accumulator loop returns no duplicates
exactly when the pending accumulator is empty, the remaining input has
no repeats, and no input element was already seen. -/
theorem findDuplicatesAux_eq_nil (l seen dups : List String) :
    findDuplicatesAux l seen dups = [] ↔
      dups = [] ∧ l.Nodup ∧ ∀ x ∈ l, x ∉ seen := by
  induction l generalizing seen dups with
  | nil => simp [findDuplicatesAux]
  | cons x rest ih =>
    by_cases hx : x ∈ seen
    · rw [findDuplicatesAux, if_pos hx, ih]
      constructor
      · rintro ⟨hd, -, -⟩
        exfalso
        by_cases hxd : x ∈ dups
        · rw [if_pos hxd] at hd
          rw [hd] at hxd
          simp at hxd
        · rw [if_neg hxd] at hd
          simp at hd
      · rintro ⟨-, -, hall⟩
        exact absurd hx (hall x (List.mem_cons_self x rest))
    · rw [findDuplicatesAux, if_neg hx, ih]
      constructor
      · rintro ⟨hd, hnd, hall⟩
        refine ⟨hd, List.nodup_cons.mpr ⟨?_, hnd⟩, ?_⟩
        · intro hxr
          exact absurd (List.mem_append.mpr (.inr (by simp))) (hall x hxr)
        · intro y hy
          rcases List.mem_cons.mp hy with rfl | hyr
          · exact hx
          · intro hys
            exact (hall y hyr) (List.mem_append.mpr (.inl hys))
      · rintro ⟨hd, hnd, hall⟩
        obtain ⟨hxr, hnd'⟩ := List.nodup_cons.mp hnd
        refine ⟨hd, hnd', ?_⟩
        intro y hy hys
        rcases List.mem_append.mp hys with hys' | hyx
        · exact (hall y (List.mem_cons_of_mem x hy)) hys'
        · simp at hyx
          subst hyx
          exact hxr hy

/-- Helper: `findDuplicates` finds nothing exactly on duplicate-free
lists. -/
theorem findDuplicates_eq_nil (l : List String) :
    findDuplicates l = [] ↔ l.Nodup := by
  simp [findDuplicates, findDuplicatesAux_eq_nil]

/-- Helper: two strings differing at one position differ. -/
theorem string_ne_of_get (s t : String) (k : Nat) (c d : Char)
    (hc : s.data.get? k = some c) (hd : t.data.get? k = some d) (hne : c ≠ d) :
    s ≠ t := by
  intro h
  rw [h] at hc
  rw [hc] at hd
  exact hne (Option.some.inj hd)

/-- Helper: per-entry messages of `validateMappings` start with M. -/
theorem mapping_msg_head (i : Nat) (e : String) :
    ("Mapping " ++ (i + 1).repr ++ ": " ++ e).data.get? 0 = some 'M' := by
  rfl

/-- Helper: the duplicate-columns message starts with D. -/
theorem dupColumnsMsg_get0 (ms : List ColumnMapping) :
    (dupColumnsMsg ms).data.get? 0 = some 'D' := by rfl

/-- Helper: character 10 of the duplicate-columns message. -/
theorem dupColumnsMsg_get10 (ms : List ColumnMapping) :
    (dupColumnsMsg ms).data.get? 10 = some 's' := by rfl

/-- Helper: the duplicate-properties message starts with D. -/
theorem dupPropertiesMsg_get0 (ms : List ColumnMapping) :
    (dupPropertiesMsg ms).data.get? 0 = some 'D' := by rfl

/-- Helper: character 10 of the duplicate-properties message. -/
theorem dupPropertiesMsg_get10 (ms : List ColumnMapping) :
    (dupPropertiesMsg ms).data.get? 10 = some 'N' := by rfl

/-- Helper: the duplicate-columns message appears in the validation
errors exactly when the trimmed column list of ALL mappings (active or
not) holds a duplicate. -/
theorem dup_columns_mem_iff (ms : List ColumnMapping) :
    dupColumnsMsg ms ∈ (validateMappings ms).errors ↔
      findDuplicates (trimmedColumns ms) ≠ [] := by
  by_cases hemp : ms.isEmpty
  · have hms : ms = [] := List.isEmpty_iff.mp hemp
    subst hms
    rw [validateMappings]
    simp only [List.isEmpty_nil, if_true]
    constructor
    · intro hmem
      simp only [List.mem_singleton] at hmem
      exact absurd hmem
        (string_ne_of_get _ _ 0 'D' 'C' (by rfl) (by rfl) (by decide))
    · intro hne
      exact absurd rfl hne
  · rw [validateMappings, if_neg hemp]
    dsimp only
    constructor
    · intro hmem
      by_contra hdc
      have hfd : findDuplicates (trimmedColumns ms) = [] := hdc
      simp only [hfd, List.isEmpty_nil, if_true, List.append_nil,
        List.mem_append] at hmem
      rcases hmem with (h1 | h2) | h3
      · obtain ⟨p, hp, hmsg⟩ := List.mem_flatMap.mp h1
        obtain ⟨e, he, heq⟩ := List.mem_map.mp hmsg
        exact string_ne_of_get _ _ 0 'M' 'D'
          (mapping_msg_head p.1 e) (dupColumnsMsg_get0 ms) (by decide) heq
      · revert h2
        split_ifs with hdp
        · simp
        · intro h2
          simp only [List.mem_singleton] at h2
          exact absurd h2
            (string_ne_of_get _ _ 10 's' 'N'
              (dupColumnsMsg_get10 ms) (dupPropertiesMsg_get10 ms) (by decide))
      · revert h3
        split_ifs with ht1 ht2 <;> intro h3 <;>
          simp only [List.mem_singleton, List.not_mem_nil] at h3
        · exact absurd h3
            (string_ne_of_get _ _ 0 'D' 'A' (dupColumnsMsg_get0 ms) (by rfl)
              (by decide))
        · exact absurd h3
            (string_ne_of_get _ _ 0 'D' 'O' (dupColumnsMsg_get0 ms) (by rfl)
              (by decide))
    · intro hne
      have hie : ¬ ((findDuplicates (trimmedColumns ms)).isEmpty = true) := by
        rw [List.isEmpty_iff]
        exact hne
      rw [if_neg hie]
      simp [List.mem_append]

/-- Helper: the duplicate-properties analogue of `dup_columns_mem_iff`. -/
theorem dup_properties_mem_iff (ms : List ColumnMapping) :
    dupPropertiesMsg ms ∈ (validateMappings ms).errors ↔
      findDuplicates (trimmedProperties ms) ≠ [] := by
  by_cases hemp : ms.isEmpty
  · have hms : ms = [] := List.isEmpty_iff.mp hemp
    subst hms
    rw [validateMappings]
    simp only [List.isEmpty_nil, if_true]
    constructor
    · intro hmem
      simp only [List.mem_singleton] at hmem
      exact absurd hmem
        (string_ne_of_get _ _ 0 'D' 'C' (by rfl) (by rfl) (by decide))
    · intro hne
      exact absurd rfl hne
  · rw [validateMappings, if_neg hemp]
    dsimp only
    constructor
    · intro hmem
      by_contra hdp
      have hfd : findDuplicates (trimmedProperties ms) = [] := hdp
      simp only [hfd, List.isEmpty_nil, if_true, List.append_nil,
        List.mem_append] at hmem
      rcases hmem with (h1 | h2) | h3
      · obtain ⟨p, hp, hmsg⟩ := List.mem_flatMap.mp h1
        obtain ⟨e, he, heq⟩ := List.mem_map.mp hmsg
        exact string_ne_of_get _ _ 0 'M' 'D'
          (mapping_msg_head p.1 e) (dupPropertiesMsg_get0 ms) (by decide) heq
      · revert h2
        split_ifs with hdc
        · simp
        · intro h2
          simp only [List.mem_singleton] at h2
          exact absurd h2
            (string_ne_of_get _ _ 10 'N' 's'
              (dupPropertiesMsg_get10 ms) (dupColumnsMsg_get10 ms) (by decide))
      · revert h3
        split_ifs with ht1 ht2 <;> intro h3 <;>
          simp only [List.mem_singleton, List.not_mem_nil] at h3
        · exact absurd h3
            (string_ne_of_get _ _ 0 'D' 'A' (dupPropertiesMsg_get0 ms) (by rfl)
              (by decide))
        · exact absurd h3
            (string_ne_of_get _ _ 0 'D' 'O' (dupPropertiesMsg_get0 ms) (by rfl)
              (by decide))
    · intro hne
      have hie : ¬ ((findDuplicates (trimmedProperties ms)).isEmpty = true) := by
        rw [List.isEmpty_iff]
        exact hne
      rw [if_neg hie]
      simp [List.mem_append]

/-- Claim C9, counterexample: a list whose only shared column pairs an
active mapping with an inactive one still draws a duplicate-columns
error — the active subset alone holds no duplicate, yet the error is
reported, so duplicate detection is not judged over the active subset
only. -/
theorem inactive_duplicate_flagged_cex :
    (validateMappings
      [⟨"A", "X", "title", true, false⟩,
       ⟨"A", "Y", "rich_text", false, false⟩]).errors
      = ["Duplicate spreadsheet columns: A"] ∧
    (([⟨"A", "X", "title", true, false⟩,
       ⟨"A", "Y", "rich_text", false, false⟩] : List ColumnMapping).filter
        (fun m => m.isTarget)).length = 1 := by
  decide

/-- Claim C9, amended: `validateMappings` judges duplicate columns and
duplicate target properties over ALL mappings, active or not: it
reports the duplicate-columns (resp. duplicate-properties) error
exactly when the trimmed, non-blank column (resp. property) names of
the whole list contain a repeat; only the exactly-one-Title rule is
restricted to the active subset. -/
theorem duplicates_over_all_mappings (ms : List ColumnMapping) :
    (dupColumnsMsg ms ∈ (validateMappings ms).errors ↔
      ¬ (trimmedColumns ms).Nodup) ∧
    (dupPropertiesMsg ms ∈ (validateMappings ms).errors ↔
      ¬ (trimmedProperties ms).Nodup) := by
  constructor
  · rw [dup_columns_mem_iff]
    exact not_congr (findDuplicates_eq_nil _)
  · rw [dup_properties_mem_iff]
    exact not_congr (findDuplicates_eq_nil _)

end Validator
